import Mathlib

set_option maxRecDepth 40000

/-!
Verification development for the travel-agent query-understanding and
retrieval-routing subsystem.  The Lean definitions below are a shallow
embedding of the Python source:

* `src/utils/intent.py` — mode classification and multi-intent detection
  (`classify_generation_mode`, `classify_multi_intent`), together with the
  defensive JSON handling of `core/llm.py` (`LLMService.extract_json`);
* `src/agents/orchestrator.py` — the specialist router and its module-level
  agent cache (`get_or_create_specialist`, `route_multi_intent`);
* `src/agents/factory.py` — the standalone factory registry
  (`STANDALONE_AGENT_FACTORIES`, `create_standalone_agent`);
* `src/database/queries.py` — catalog retrieval (`get_place_activities`,
  `semantic_search_all`, `semantic_rank`);
* `src/utils/rag.py` — the retrieval engine (`retrieve_places`);
* `src/utils/geo.py` — haversine distance and radius search
  (`haversine_distance`, `find_nearby`).

Modelling conventions:

* Python strings are Lean `String`s; the Python string operations used by the
  code (lower-casing, stripping, comma-splitting, and the substring test of a
  SQL LIKE pattern under a case-insensitive collation) are re-implemented on
  `List Char` so that they evaluate inside the kernel.  `str.lower` is
  modelled on the ASCII range, which covers every string the code compares.
* The Completion Service is external; its raw text output reaches the code
  only through `json.loads` (after code-fence stripping).  We therefore model
  an LLM response as `Option Json`: `none` is an output on which decoding
  fails (non-JSON or empty, where `extract_json` returns `{}`), and `some j`
  is the decoded JSON value, which need not be an object.
* Stored embeddings are raw little-endian float32 bytes.  `decodeFloat32`
  decodes four bytes to the exact value of the float scaled by `2 ^ 149`
  (an integer for every finite float32: subnormals become `frac`, normals
  `(2 ^ 23 + frac) * 2 ^ (expo - 1)`).  The scaling is a fixed positive unit
  choice, so dot-product comparisons, ordering and equality of scores are
  preserved exactly; NaN/infinity bit patterns (expo = 255) are given the
  same formula, and no claim below involves them.
* Python `dict` state (`_agent_cache`) is passed explicitly as a value of
  type `AgentCacheState`; object identity of constructed agents is modelled
  by a mint counter, so `nextId` also counts constructions.
* numpy behaviour is modelled where the code relies on it:
  `np.frombuffer` fails iff the byte length is not a multiple of 4;
  `np.vstack` fails iff row widths differ; `np.dot` fails iff the inner
  dimensions differ.  Exceptions are modelled with `Except String`.
* `math.sin`/`cos`/`asin`/`sqrt`/`radians` are modelled over `ℝ`; Python
  `round(x, 2)` is modelled as `round (x * 100) / 100` (the two differ only
  at exact ties, which the inputs below never hit).
-/

namespace TravelSpec

/-! ### Python string primitives, char-level so they kernel-evaluate -/

/-- Python `str.lower` on a single character (ASCII range). -/
def pyLowerChar (c : Char) : Char :=
  if 'A' ≤ c ∧ c ≤ 'Z' then Char.ofNat (c.toNat + 32) else c

/-- Python `str.lower` (ASCII range, which covers all compared strings). -/
def pyLower (s : String) : String :=
  ⟨s.data.map pyLowerChar⟩

/-- Whitespace characters stripped by Python `str.strip()`. -/
def isPySpace (c : Char) : Bool :=
  c == ' ' || c == '\t' || c == '\n' || c == '\r'

/-- Python `str.strip()`: drop leading and trailing whitespace. -/
def pyStrip (s : String) : String :=
  ⟨((s.data.dropWhile isPySpace).reverse.dropWhile isPySpace).reverse⟩

/-- Helper for `pySplitComma`: accumulate the current field (reversed). -/
def splitCommaAux : List Char → List Char → List String
  | [], acc => [⟨acc.reverse⟩]
  | c :: rest, acc =>
    if c == ',' then ⟨acc.reverse⟩ :: splitCommaAux rest []
    else splitCommaAux rest (c :: acc)

/-- Python `s.split(",")`; on `""` it returns `[""]`, like Python. -/
def pySplitComma (s : String) : List String :=
  splitCommaAux s.data []

/-- Does `hay` start with `pat`? -/
def listStartsWith : List Char → List Char → Bool
  | _, [] => true
  | [], _ :: _ => false
  | a :: as, b :: bs => a == b && listStartsWith as bs

/-- Does `hay` contain `pat` as a contiguous run? -/
def listHasSub : List Char → List Char → Bool
  | [], pat => pat.isEmpty
  | a :: t, pat => listStartsWith (a :: t) pat || listHasSub t pat

/-- A SQL LIKE test for `pat` surrounded by percent wildcards, under the
case-insensitive default collation: case-insensitive substring containment. -/
def likeContains (field pat : String) : Bool :=
  listHasSub (pyLower field).data (pyLower pat).data

/-- Join with a comma-space separator, as the STRING_AGG aggregation of
activity names does. -/
def joinCommaSpace : List String → String
  | [] => ""
  | [a] => a
  | a :: rest => a ++ ", " ++ joinCommaSpace rest

/-- Python truthiness of an optional string argument (`None` and `""` are
falsy), used by `if place_name:`-style guards. -/
def truthyStr : Option String → Bool
  | none => false
  | some s => s != ""

/-! ### JSON values and the defensive parsing layer (`core/llm.py`) -/

/-- A decoded Python JSON value (`json.loads` output).  `num` carries the
numeric payload as an integer; no claim below depends on non-integer
numerics. -/
inductive Json where
  | null
  | bool (b : Bool)
  | num (n : Int)
  | str (s : String)
  | arr (elems : List Json)
  | obj (fields : List (String × Json))

/-- `LLMService.extract_json`: empty input or a `json.JSONDecodeError` yields
`{}`; otherwise the decoded value is returned unchecked (it need not be a
dict).  The code-fence stripping and `json.loads` themselves are the
`Option Json` boundary described in the header. -/
def extract_json : Option Json → Json
  | none => .obj []
  | some j => j

/-- Python `dict.get(key, dflt)`; with duplicate JSON keys the later entry
wins, as in `json.loads`. -/
def pyDictGet (fields : List (String × Json)) (key : String) (dflt : Json) : Json :=
  match fields.reverse.lookup key with
  | some v => v
  | none => dflt

/-- Python `value.get(key, dflt)`: an `AttributeError` unless `value` is a
dict.  `classify_generation_mode` and `classify_multi_intent` call `.get`
directly on the `extract_json` result. -/
def pyGetAttr (v : Json) (key : String) (dflt : Json) : Except String Json :=
  match v with
  | .obj fields => .ok (pyDictGet fields key dflt)
  | _ => .error "AttributeError"

/-- Python truthiness of a JSON value (`if classification.get(...)`). -/
def jsonTruthy : Json → Bool
  | .null => false
  | .bool b => b
  | .num n => n != 0
  | .str s => s != ""
  | .arr elems => !elems.isEmpty
  | .obj fields => !fields.isEmpty

/-! ### Mode classification and multi-intent detection (`src/utils/intent.py`) -/

/-- The closed `valid_modes` set of `classify_generation_mode`. -/
def valid_modes : List String :=
  ["itinerary", "suggest_places", "describe_place",
   "activity_focused", "comparison", "find_accommodation"]

/-- The dict returned by `classify_generation_mode`. -/
structure ModeClassification where
  generation_mode : String
  days : Json

/-- `classify_generation_mode(query)`, as a function of the Completion
Service response: `mode = result.get("generation_mode", "itinerary")`, then
out-of-set values are replaced with `"itinerary"`. -/
def classify_generation_mode (resp : Option Json) : Except String ModeClassification := do
  let result := extract_json resp
  let modeJ ← pyGetAttr result "generation_mode" (.str "itinerary")
  let mode :=
    match modeJ with
    | .str s => if valid_modes.contains s then s else "itinerary"
    | _ => "itinerary"
  let days ← pyGetAttr result "days" .null
  return ⟨mode, days⟩

/-- Projection used to state properties of a classification result. -/
def classified_mode : Except String ModeClassification → String
  | .ok mc => mc.generation_mode
  | .error _ => ""

/-- Completion Service responses on which `.get` cannot raise: decode
failures (handled by `extract_json`) and JSON objects. -/
def respObjOrFail : Option Json → Bool
  | none => true
  | some (.obj _) => true
  | some _ => false

/-- The dict returned by `classify_multi_intent`: the four `.get` results are
passed through unvalidated. -/
structure MultiIntentClassification where
  is_multi_intent : Json
  primary_intent : Json
  intents : Json
  reasoning : Json

/-- `classify_multi_intent(query)`, as a function of the Completion Service
response. -/
def classify_multi_intent (resp : Option Json) : Except String MultiIntentClassification := do
  let result := extract_json resp
  let mi ← pyGetAttr result "is_multi_intent" (.bool false)
  let pri ← pyGetAttr result "primary_intent" (.str "itinerary")
  let its ← pyGetAttr result "intents" (.arr [])
  let rsn ← pyGetAttr result "reasoning" (.str "Classification completed")
  return ⟨mi, pri, its, rsn⟩

/-- Which execution path `route_multi_intent` takes when no explicit mode is
supplied. -/
inductive RouteDecision where
  | multiAgent
  | singleSpecialist (primary_intent : Json)

/-- The routing decision of `route_multi_intent` (orchestrator.py): the
multi-agent orchestrator iff `classification.get("is_multi_intent", False)`
is truthy, else direct specialist routing on `primary_intent`. -/
def route_multi_intent_decision (resp : Option Json) : Except String RouteDecision := do
  let c ← classify_multi_intent resp
  if jsonTruthy c.is_multi_intent then return .multiAgent
  else return .singleSpecialist c.primary_intent

/-! ### Factory registry (`src/agents/factory.py`) -/

/-- The `GenerationMode` enum of factory.py. -/
inductive GenerationMode where
  | itinerary
  | suggest_places
  | describe_place
  | activity_focused
  | comparison
  | find_accommodation
deriving DecidableEq, Repr

/-- Which generator module constructs a given agent (the five `create_*`
functions of `agents/generators/`). -/
inductive AgentKind where
  | itineraryAgent
  | placesAgent
  | accommodationAgent
  | activityAgent
  | comparisonAgent
deriving DecidableEq, Repr

/-- The literal `STANDALONE_AGENT_FACTORIES` dict; `dict.get` yields
`Option`.  Every enum member has an entry in the source. -/
def STANDALONE_AGENT_FACTORIES : GenerationMode → Option AgentKind
  | .itinerary => some .itineraryAgent
  | .suggest_places => some .placesAgent
  | .describe_place => some .placesAgent
  | .activity_focused => some .activityAgent
  | .comparison => some .comparisonAgent
  | .find_accommodation => some .accommodationAgent

/-- `create_standalone_agent`: `ValueError` when the registry has no factory
for the mode (the `if not factory: raise` branch). -/
def create_standalone_agent (mode : GenerationMode) : Except String AgentKind :=
  match STANDALONE_AGENT_FACTORIES mode with
  | some k => .ok k
  | none => .error "ValueError: No standalone agent factory found for mode"

/-! ### Specialist router and agent cache (`src/agents/orchestrator.py`) -/

/-- A constructed specialist agent; `mintId` models Python object identity
(two handles are the same object iff their mint ids coincide). -/
structure Handle where
  kind : AgentKind
  mintId : Nat
deriving DecidableEq, Repr

/-- The module-level `_agent_cache` dict plus the construction counter.
Assignment prepends, and lookup takes the first hit, which models dict
overwrite-and-read. -/
structure AgentCacheState where
  cache : List (String × Handle)
  nextId : Nat
deriving DecidableEq, Repr

/-- The initial module state: an empty `_agent_cache`. -/
def emptyAgentCache : AgentCacheState := ⟨[], 0⟩

/-- Python `deployment_name or default`: both `None` and `""` are falsy and
yield the literal string "default". -/
def pyOrDefault : Option String → String
  | none => "default"
  | some s => if s == "" then "default" else s

/-- The cache key: the mode, an underscore, and the deployment name with
falsy values replaced by "default" (a Python f-string in the source). -/
def cache_key (mode : String) (deployment_name : Option String) : String :=
  mode ++ "_" ++ pyOrDefault deployment_name

/-- The if/elif dispatch of `get_or_create_specialist`; the final `else`
branch carries the source comment about falling back to the itinerary
agent. -/
def specialist_kind_for_mode (mode : String) : AgentKind :=
  if mode == "itinerary" then .itineraryAgent
  else if mode == "suggest_places" || mode == "describe_place" then .placesAgent
  else if mode == "find_accommodation" then .accommodationAgent
  else if mode == "activity_focused" then .activityAgent
  else if mode == "comparison" then .comparisonAgent
  else .itineraryAgent

/-- `get_or_create_specialist(mode, deployment_name)`: check membership,
construct and store on a miss, then return `_agent_cache[cache_key]`.  In
the single-threaded function the final dict read necessarily yields the
just-stored handle on a miss and the existing one on a hit, so the function
is written with that read resolved; the unresolved read is kept in
`threadStep`, where interleaving makes it observable. -/
def get_or_create_specialist (mode : String) (deployment_name : Option String)
    (s : AgentCacheState) : Handle × AgentCacheState :=
  match s.cache.lookup (cache_key mode deployment_name) with
  | some h => (h, s)
  | none =>
    (⟨specialist_kind_for_mode mode, s.nextId⟩,
     ⟨(cache_key mode deployment_name, ⟨specialist_kind_for_mode mode, s.nextId⟩) :: s.cache,
      s.nextId + 1⟩)

/-! ### Two concurrent callers of `get_or_create_specialist`

The source guards the check-and-insert with no lock, so two tasks can
interleave between `if cache_key not in _agent_cache` and the store.  Each
thread is modelled with three atomic phases — the membership check, the
construct-and-store, and the final `return _agent_cache[cache_key]` read —
which is coarser than real Python bytecode interleaving and therefore only
underestimates the schedules available to an adversary. -/

/-- Program counter of one caller. -/
inductive ThreadPhase where
  | atCheck
  | atConstruct
  | atReturn
  | finished
deriving DecidableEq, Repr

/-- Local state of one caller. -/
structure ThreadState where
  phase : ThreadPhase
  retVal : Option Handle
deriving DecidableEq, Repr

/-- Shared cache plus the two callers. -/
structure ConcState where
  shared : AgentCacheState
  thread1 : ThreadState
  thread2 : ThreadState
deriving DecidableEq, Repr

/-- One atomic step of a caller running `get_or_create_specialist mode dep`. -/
def threadStep (mode : String) (dep : Option String)
    (t : ThreadState) (sh : AgentCacheState) : ThreadState × AgentCacheState :=
  let key := cache_key mode dep
  match t.phase with
  | .atCheck =>
    match sh.cache.lookup key with
    | some _ => (⟨.atReturn, t.retVal⟩, sh)
    | none => (⟨.atConstruct, t.retVal⟩, sh)
  | .atConstruct =>
    (⟨.atReturn, t.retVal⟩,
     ⟨(key, ⟨specialist_kind_for_mode mode, sh.nextId⟩) :: sh.cache, sh.nextId + 1⟩)
  | .atReturn => (⟨.finished, sh.cache.lookup key⟩, sh)
  | .finished => (t, sh)

/-- Scheduler step: `true` steps thread 1, `false` steps thread 2. -/
def schedStep (mode : String) (dep : Option String) (c : ConcState) (pick1 : Bool) : ConcState :=
  if pick1 then
    let r := threadStep mode dep c.thread1 c.shared
    ⟨r.2, r.1, c.thread2⟩
  else
    let r := threadStep mode dep c.thread2 c.shared
    ⟨r.2, c.thread1, r.1⟩

/-- Run a schedule from a configuration. -/
def runSchedule (mode : String) (dep : Option String)
    (sched : List Bool) (c : ConcState) : ConcState :=
  sched.foldl (schedStep mode dep) c

/-- Both callers about to run against an empty cache. -/
def initialConcState : ConcState :=
  ⟨emptyAgentCache, ⟨.atCheck, none⟩, ⟨.atCheck, none⟩⟩

/-! ### Catalog Store records and embedding decoding
(`src/database/queries.py`, `core/embedding.py`) -/

/-- A catalog place row as the queries see it: joined to its activity names,
with the stored embedding blob (little-endian float32 bytes, or SQL NULL).
Bytes are `Nat`s in `[0, 256)`. -/
structure PlaceRecord where
  name : String
  region : String
  country : String
  category : String
  activities : List String
  embedding : Option (List Nat)
deriving DecidableEq, Repr

/-- Exact value of a little-endian IEEE-754 float32, scaled by `2 ^ 149` so
that it is an integer (see the file header). -/
def decodeFloat32 (b0 b1 b2 b3 : Nat) : Int :=
  let bits : Nat := b0 + 256 * b1 + 65536 * b2 + 16777216 * b3
  let expo : Nat := bits / 2 ^ 23 % 256
  let frac : Nat := bits % 2 ^ 23
  let mag : Nat := if expo = 0 then frac else (2 ^ 23 + frac) * 2 ^ (expo - 1)
  if bits / 2 ^ 31 % 2 = 1 then -(mag : Int) else (mag : Int)

/-- `np.frombuffer(blob, dtype=np.float32)`: a `ValueError` iff the byte
length is not a multiple of the 4-byte element size, otherwise the decoded
vector (length = byte length / 4). -/
def frombuffer_f32 : List Nat → Except String (List Int)
  | [] => .ok []
  | b0 :: b1 :: b2 :: b3 :: rest =>
    match frombuffer_f32 rest with
    | .ok vs => .ok (decodeFloat32 b0 b1 b2 b3 :: vs)
    | .error e => .error e
  | _ => .error "ValueError: buffer size must be a multiple of element size"

/-- Dot product of two equal-length vectors. -/
def dotInt (xs ys : List Int) : Int :=
  (List.zipWith (· * ·) xs ys).sum

/-- The row shape returned by `get_place_activities` /
`semantic_search_all`: the place name, the comma-space aggregation of its
activity names, and the embedding blob. -/
def PlaceRow : Type := String × String × Option (List Nat)

/-- Project a catalog record to a query row. -/
def rowOfPlace (p : PlaceRecord) : PlaceRow :=
  (p.name, joinCommaSpace p.activities, p.embedding)

/-- One optional AND LIKE clause; the clause is only added
when the Python argument is truthy. -/
def filterClause (field : String) (flt : Option String) : Bool :=
  match flt with
  | none => true
  | some s => if s == "" then true else likeContains field s

/-- The filtered SELECT of `get_place_activities`: the inner JOIN through
`place_activities` keeps only places with at least one activity, and each
supplied filter adds an AND `LIKE` clause.  The `Countries` join is modelled
by matching the country name of the record, which is what the join
resolves to. -/
def sql_filter_places (catalog : List PlaceRecord)
    (place_name region country category : Option String) : List PlaceRecord :=
  catalog.filter fun p =>
    !p.activities.isEmpty
    && filterClause p.name place_name
    && filterClause p.region region
    && filterClause p.country country
    && filterClause p.category category

/-! ### Stable descending sort, modelling Python
`sorted(..., key=lambda x: x[0], reverse=True)` / `list.sort(...)`.
The Python sort is stable, and with descending order elements with equal keys
keep their original relative order; insertion before the first
less-or-equal key realises exactly that ordering. -/

/-- Insert `x` into a descending-sorted list, before the first element whose
key is less than or equal to the key of `x`. -/
def insertDescBy {α : Type} (key : α → Int) (x : α) : List α → List α
  | [] => [x]
  | y :: ys => if key y ≤ key x then x :: y :: ys else y :: insertDescBy key x ys

/-- Stable descending sort by an integer key. -/
def sortDescBy {α : Type} (key : α → Int) : List α → List α
  | [] => []
  | x :: xs => insertDescBy key x (sortDescBy key xs)

/-- `semantic_rank(rows, query, top_k)` (queries.py): score every row with a
truthy embedding inside a `try`, so both `np.frombuffer` failures and
`np.dot` shape mismatches are caught and the row is skipped; then a stable
descending in-place sort on the score and truncation to `top_k`, returning
rows only. -/
def semantic_rank (rows : List PlaceRow) (qEmb : List Int) (top_k : Nat) : List PlaceRow :=
  let scored : List (Int × PlaceRow) := rows.filterMap fun r =>
    match r.2.2 with
    | none => none
    | some bs =>
      if bs.isEmpty then none
      else
        match frombuffer_f32 bs with
        | .ok emb =>
          if emb.length == qEmb.length then some (dotInt qEmb emb, r) else none
        | .error _ => none
  ((sortDescBy (fun p => p.1) scored).take top_k).map fun p => p.2

/-- `semantic_search_all(query, top_k=5)`: the unfiltered SELECT (still an
inner JOIN through activities) followed by `semantic_rank`. -/
def semantic_search_all (catalog : List PlaceRecord) (qEmb : List Int) : List PlaceRow :=
  semantic_rank ((catalog.filter fun p => !p.activities.isEmpty).map rowOfPlace) qEmb 5

/-- `get_place_activities(query, place_name, region, country, category)`:
with no truthy filter it delegates to `semantic_search_all(query, top_k=5)`,
otherwise it runs the filtered SELECT. -/
def get_place_activities (catalog : List PlaceRecord) (qEmb : List Int)
    (place_name region country category : Option String) : List PlaceRow :=
  if !(truthyStr place_name || truthyStr region || truthyStr country || truthyStr category) then
    semantic_search_all catalog qEmb
  else
    (sql_filter_places catalog place_name region country category).map rowOfPlace

/-! ### The retrieval engine (`src/utils/rag.py`) -/

/-- `[a.strip() for a in s.split(",")]` then lower-casing, as in
`retrieve_places`. -/
def parse_activities (s : String) : List String :=
  ((pySplitComma s).map fun a => pyStrip a).map fun a => pyLower a

/-- A surviving candidate of `retrieve_places`: name, parsed lower-case
activity list, decoded embedding. -/
structure Candidate where
  name : String
  activities : List String
  embedding : List Int
deriving DecidableEq, Repr

/-- The candidate-collection loop of `retrieve_places`: parse activities,
apply the activity hard gate (`continue` on any missing requested activity,
checked only when `requested_activities` is truthy), skip `None` embeddings,
and skip rows whose blob fails `np.frombuffer`. -/
def retrieve_candidates (places_data : List PlaceRow)
    (requested_activities : List String) : List Candidate :=
  places_data.filterMap fun r =>
    let acts := parse_activities r.2.1
    if !requested_activities.isEmpty
        && !(requested_activities.all fun req => acts.contains (pyLower req)) then
      none
    else
      match r.2.2 with
      | none => none
      | some bs =>
        match frombuffer_f32 bs with
        | .ok emb => some ⟨r.1, acts, emb⟩
        | .error _ => none

/-- Score every candidate: `np.dot(place_embs, q_emb.T).flatten()` gives the
dot product of each candidate row with the query embedding. -/
def score_candidates (qEmb : List Int) (cs : List Candidate) : List (Int × Candidate) :=
  cs.map fun c => (dotInt c.embedding qEmb, c)

/-- `retrieve_places(query, place_name, region, country, category,
requested_activities, top_k)`: pull rows, collect candidates, return `[]`
when none survive; otherwise `np.vstack` requires equal embedding widths and
`np.dot` requires that width to equal the query-embedding width (either
mismatch raises a `ValueError` that nothing catches), then
`sorted(..., reverse=True)[:top_k]`. -/
def retrieve_places (catalog : List PlaceRecord) (qEmb : List Int)
    (place_name region country category : Option String)
    (requested_activities : List String) (top_k : Nat) :
    Except String (List (Int × Candidate)) :=
  match retrieve_candidates
      (get_place_activities catalog qEmb place_name region country category)
      requested_activities with
  | [] => .ok []
  | c :: cs =>
    if cs.all fun c2 => c2.embedding.length == c.embedding.length then
      if c.embedding.length == qEmb.length then
        .ok ((sortDescBy (fun p => p.1) (score_candidates qEmb (c :: cs))).take top_k)
      else .error "ValueError: shapes not aligned"
    else .error "ValueError: all the input array dimensions must match exactly"

/-! ### Geo proximity matcher (`src/utils/geo.py`) -/

/-- `math.radians`. -/
noncomputable def radians (x : ℝ) : ℝ := x * Real.pi / 180

/-- Python `round(x, 2)` (round-half-even differs from `round` only at exact
ties, which no input below hits). -/
noncomputable def round2 (x : ℝ) : ℝ := (round (x * 100) : ℤ) / 100

/-- `haversine_distance(lat1, lon1, lat2, lon2)`: the haversine formula with
Earth radius 6371.0 km, result rounded to two decimals. -/
noncomputable def haversine_distance (lat1 lon1 lat2 lon2 : ℝ) : ℝ :=
  round2 (6371.0 * (2 * Real.arcsin (Real.sqrt
    (Real.sin ((radians lat2 - radians lat1) / 2) ^ 2 +
     Real.cos (radians lat1) * Real.cos (radians lat2) *
       Real.sin ((radians lon2 - radians lon1) / 2) ^ 2))))

/-- An item passed to `find_nearby`; `coords = none` models a dict lacking
latitude/longitude keys (or carrying `None` for either). -/
structure GeoItem where
  name : String
  coords : Option (ℝ × ℝ)

/-- Insert into an ascending-by-distance sorted list (stable, as Python
`list.sort(key=lambda x: x[1])`). -/
noncomputable def insertAscByDist (x : GeoItem × ℝ) :
    List (GeoItem × ℝ) → List (GeoItem × ℝ)
  | [] => [x]
  | y :: ys => if x.2 < y.2 then x :: y :: ys else y :: insertAscByDist x ys

/-- Stable ascending sort by distance. -/
noncomputable def sortAscByDist : List (GeoItem × ℝ) → List (GeoItem × ℝ)
  | [] => []
  | x :: xs => insertAscByDist x (sortAscByDist xs)

/-- `find_nearby(target_lat, target_lon, items, radius_km)`: skip items
without coordinates, keep those with distance within the radius, sort
ascending by distance. -/
noncomputable def find_nearby (target_lat target_lon : ℝ)
    (items : List GeoItem) (radius_km : ℝ) : List (GeoItem × ℝ) :=
  sortAscByDist (items.filterMap fun it =>
    match it.coords with
    | none => none
    | some c =>
      let d := haversine_distance target_lat target_lon c.1 c.2
      if d ≤ radius_km then some (it, d) else none)

/-! ### Concrete fixtures used by witnesses and counterexamples -/

/-- Little-endian float32 bytes of `1.0` (decoded, scaled value `2 ^ 149`). -/
def bytesOne : List Nat := [0, 0, 128, 63]

/-- The scaled decoding of float 1.0, that is `2 ^ 149`. -/
def scaledFloatOne : Int := 713623846352979940529142984724747568191373312

/-- The scaled decoding of float 2.0, that is `2 ^ 150`. -/
def scaledFloatTwo : Int := 1427247692705959881058285969449495136382746624

/-- Little-endian float32 bytes of `2.0` (decoded, scaled value `2 ^ 150`). -/
def bytesTwo : List Nat := [0, 0, 0, 64]

/-- An all-zero blob of `n` float32 values (4·n bytes). -/
def zeroBlob (n : Nat) : List Nat := List.replicate (4 * n) 0

/-- A query embedding of width 1 (the Embedding Service is external, so the
width is a parameter of the model; claims that fix D = 768 use `qEmb768`). -/
def qEmbUnit : List Int := [1]

/-- A query embedding of the repository default width D = 768. -/
def qEmb768 : List Int := List.replicate 768 1

/-- Six catalog records, all eligible: non-empty activity sets and decodable
width-1 embeddings. -/
def catalogSixPlaces : List PlaceRecord :=
  [⟨"Doi Inthanon", "Chiang Mai", "Thailand", "mountain", ["hiking"], some bytesOne⟩,
   ⟨"Doi Suthep", "Chiang Mai", "Thailand", "temple", ["hiking"], some bytesOne⟩,
   ⟨"Pai Canyon", "Mae Hong Son", "Thailand", "canyon", ["hiking"], some bytesOne⟩,
   ⟨"Erawan Falls", "Kanchanaburi", "Thailand", "waterfall", ["hiking"], some bytesOne⟩,
   ⟨"Khao Yai", "Nakhon Ratchasima", "Thailand", "park", ["hiking"], some bytesOne⟩,
   ⟨"Phu Kradueng", "Loei", "Thailand", "park", ["hiking"], some bytesOne⟩]

/-- Two records in one region whose stored embeddings decode to different
widths: 768 floats, and 2 floats from an 8-byte blob (a multiple of 4, so
`np.frombuffer` succeeds on it). -/
def catalogWidthMix : List PlaceRecord :=
  [⟨"Doi Inthanon", "highlands", "Thailand", "mountain", ["hiking"], some (zeroBlob 768)⟩,
   ⟨"Doi Suthep", "highlands", "Thailand", "temple", ["hiking"], some (zeroBlob 2)⟩]

/-- One record with a good embedding, one with a missing embedding (SQL
NULL), one whose 3-byte blob makes `np.frombuffer` raise. -/
def catalogCorrupt : List PlaceRecord :=
  [⟨"Doi Inthanon", "north", "Thailand", "mountain", ["hiking"], some bytesOne⟩,
   ⟨"Doi Suthep", "north", "Thailand", "temple", ["hiking"], none⟩,
   ⟨"Pai Canyon", "north", "Thailand", "canyon", ["hiking"], some [0, 0, 0]⟩]

/-- One record offering hiking (upper-case in the catalog), one that does
not offer it. -/
def catalogGate : List PlaceRecord :=
  [⟨"Doi Inthanon", "north", "Thailand", "mountain", ["Hiking", "Temples"], some bytesOne⟩,
   ⟨"Railay Beach", "south", "Thailand", "beach", ["Swimming"], some bytesOne⟩]

/-- Two records with distinct scores against `qEmbUnit` (floats 1.0, 2.0). -/
def catalogScores : List PlaceRecord :=
  [⟨"Doi Inthanon", "north", "Thailand", "mountain", ["hiking"], some bytesOne⟩,
   ⟨"Doi Suthep", "north", "Thailand", "temple", ["hiking"], some bytesTwo⟩]

/-- The end-to-end scenario-C probe item: latitude 18.80, longitude 98.92. -/
def watDoiItem : GeoItem := ⟨"Wat Phra That", some (18.80, 98.92)⟩

/-! ### Properties of the stable descending sort -/

theorem mem_insertDescBy {α : Type} (key : α → Int) (x : α) (l : List α) (a : α) :
    a ∈ insertDescBy key x l ↔ a = x ∨ a ∈ l := by
  induction l with
  | nil => simp [insertDescBy]
  | cons y ys ih =>
    simp only [insertDescBy]
    split
    · simp [List.mem_cons]
    · simp only [List.mem_cons, ih]
      tauto

theorem insertDescBy_perm {α : Type} (key : α → Int) (x : α) (l : List α) :
    (insertDescBy key x l).Perm (x :: l) := by
  induction l with
  | nil => exact List.Perm.refl _
  | cons y ys ih =>
    simp only [insertDescBy]
    split
    · exact List.Perm.refl _
    · exact (ih.cons y).trans (List.Perm.swap x y ys)

theorem sortDescBy_perm {α : Type} (key : α → Int) (l : List α) :
    (sortDescBy key l).Perm l := by
  induction l with
  | nil => exact List.Perm.refl _
  | cons x xs ih =>
    exact (insertDescBy_perm key x (sortDescBy key xs)).trans (ih.cons x)

theorem insertDescBy_sorted {α : Type} (key : α → Int) (x : α) (l : List α)
    (h : l.Pairwise fun a b => key b ≤ key a) :
    (insertDescBy key x l).Pairwise fun a b => key b ≤ key a := by
  induction l with
  | nil => simp [insertDescBy]
  | cons y ys ih =>
    rw [List.pairwise_cons] at h
    obtain ⟨hy, hys⟩ := h
    simp only [insertDescBy]
    split
    · rename_i hle
      refine List.pairwise_cons.2 ⟨?_, List.pairwise_cons.2 ⟨hy, hys⟩⟩
      intro b hb
      rcases List.mem_cons.1 hb with rfl | hb
      · exact hle
      · exact le_trans (hy b hb) hle
    · rename_i hgt
      refine List.pairwise_cons.2 ⟨?_, ih hys⟩
      intro b hb
      rcases (mem_insertDescBy key x ys b).1 hb with rfl | hb
      · exact le_of_lt (lt_of_not_le hgt)
      · exact hy b hb

theorem sortDescBy_sorted {α : Type} (key : α → Int) (l : List α) :
    (sortDescBy key l).Pairwise fun a b => key b ≤ key a := by
  induction l with
  | nil => simp [sortDescBy]
  | cons x xs ih => exact insertDescBy_sorted key x _ ih

theorem filter_insertDescBy {α : Type} (key : α → Int) (x : α) (l : List α) (q : Int) :
    (insertDescBy key x l).filter (fun a => key a == q) =
      if key x == q then x :: l.filter (fun a => key a == q)
      else l.filter (fun a => key a == q) := by
  induction l with
  | nil => simp [insertDescBy, List.filter_cons]
  | cons y ys ih =>
    simp only [insertDescBy]
    split
    · rename_i hle
      simp only [List.filter_cons]
    · rename_i hgt
      simp only [List.filter_cons, ih]
      by_cases hy : (key y == q) = true
      · by_cases hx : (key x == q) = true
        · exfalso
          have h1 : key y = q := beq_iff_eq.1 hy
          have h2 : key x = q := beq_iff_eq.1 hx
          exact hgt (le_of_eq (h1.trans h2.symm))
        · simp [hy, hx]
      · by_cases hx : (key x == q) = true <;> simp [hy, hx]

theorem sortDescBy_filter_eq {α : Type} (key : α → Int) (l : List α) (q : Int) :
    (sortDescBy key l).filter (fun a => key a == q) =
      l.filter (fun a => key a == q) := by
  induction l with
  | nil => rfl
  | cons x xs ih =>
    simp only [sortDescBy, filter_insertDescBy, List.filter_cons, ih]

/-! ### Properties of the retrieval pipeline -/

theorem frombuffer_replicate_zero (n : Nat) :
    frombuffer_f32 (List.replicate (4 * n) 0) = .ok (List.replicate n 0) := by
  induction n with
  | zero => rfl
  | succ k ih =>
    have h1 : List.replicate (4 * (k + 1)) (0 : Nat) =
        0 :: 0 :: 0 :: 0 :: List.replicate (4 * k) 0 := by
      rw [show 4 * (k + 1) = ((((4 * k) + 1) + 1) + 1) + 1 by ring]
      simp [List.replicate_succ]
    rw [h1, frombuffer_f32, ih]
    rfl

/-- Every element of a `score_candidates` list carries the dot product of
the embedding of its own candidate with the query embedding. -/
theorem mem_score_candidates (qEmb : List Int) (cs : List Candidate)
    (p : Int × Candidate) (hp : p ∈ score_candidates qEmb cs) :
    p.1 = dotInt p.2.embedding qEmb ∧ p.2 ∈ cs := by
  unfold score_candidates at hp
  obtain ⟨c, hc, hpc⟩ := List.mem_map.1 hp
  subst hpc
  exact ⟨rfl, hc⟩

/-- Rows surviving `semantic_rank` come from the input and carry a truthy
blob that decodes to a vector of the query-embedding width. -/
theorem mem_semantic_rank (rows : List PlaceRow) (qEmb : List Int) (k : Nat)
    (r : PlaceRow) (h : r ∈ semantic_rank rows qEmb k) :
    r ∈ rows ∧ ∃ bs emb, r.2.2 = some bs ∧ frombuffer_f32 bs = .ok emb ∧
      emb.length = qEmb.length := by
  unfold semantic_rank at h
  obtain ⟨p, hp, rfl⟩ := List.mem_map.1 h
  have hp1 := List.Sublist.mem hp (List.take_sublist k _)
  have hp2 := (sortDescBy_perm (fun q : Int × PlaceRow => q.1) _).mem_iff.1 hp1
  obtain ⟨row, hrow, hf⟩ := List.mem_filterMap.1 hp2
  split at hf
  · exact absurd hf (by simp)
  · rename_i bs hbs
    split at hf
    · exact absurd hf (by simp)
    · split at hf
      · rename_i emb hemb
        split at hf
        · rename_i hlen
          obtain rfl := Option.some.inj hf
          exact ⟨hrow, bs, emb, hbs, hemb, beq_iff_eq.1 hlen⟩
        · exact absurd hf (by simp)
      · exact absurd hf (by simp)

/-- Candidates produced by the collection loop of `retrieve_places`: each
comes from a pool row whose blob decodes to the embedding of the candidate,
and
each passes the activity hard gate when activities were requested. -/
theorem mem_retrieve_candidates (rows : List PlaceRow) (req : List String)
    (c : Candidate) (h : c ∈ retrieve_candidates rows req) :
    (∃ r ∈ rows, c.activities = parse_activities r.2.1 ∧
        ∃ bs, r.2.2 = some bs ∧ frombuffer_f32 bs = .ok c.embedding) ∧
      (req.isEmpty = false → ∀ a ∈ req, c.activities.contains (pyLower a) = true) := by
  unfold retrieve_candidates at h
  obtain ⟨row, hrow, hf⟩ := List.mem_filterMap.1 h
  dsimp only at hf
  split at hf
  · exact absurd hf (by simp)
  · rename_i hgate
    split at hf
    · exact absurd hf (by simp)
    · rename_i bs hbs
      split at hf
      · rename_i emb hemb
        obtain rfl := Option.some.inj hf
        constructor
        · exact ⟨row, hrow, rfl, bs, hbs, hemb⟩
        · intro hne a ha
          rcases Bool.and_eq_false_iff.1 (Bool.of_not_eq_true hgate) with h1 | h2
          · rw [Bool.not_eq_false'] at h1
            rw [h1] at hne
            exact absurd hne (by simp)
          · rw [Bool.not_eq_false'] at h2
            exact List.all_eq_true.1 h2 a ha
      · exact absurd hf (by simp)

/-- A successful `retrieve_places` result is the `top_k`-prefix of the
stable descending sort of the scored candidate pool. -/
theorem retrieve_places_ok_eq (catalog : List PlaceRecord) (qEmb : List Int)
    (pn rg ct cg : Option String) (req : List String) (k : Nat)
    (result : List (Int × Candidate))
    (h : retrieve_places catalog qEmb pn rg ct cg req k = .ok result) :
    result = (sortDescBy (fun p => p.1) (score_candidates qEmb
      (retrieve_candidates (get_place_activities catalog qEmb pn rg ct cg) req))).take k := by
  unfold retrieve_places at h
  rcases hc : retrieve_candidates (get_place_activities catalog qEmb pn rg ct cg) req
    with _ | ⟨c, cs⟩
  · rw [hc] at h
    dsimp only at h
    obtain rfl := Except.ok.inj h
    simp [score_candidates, sortDescBy, List.take_nil]
  · rw [hc] at h
    dsimp only at h
    split at h
    · split at h
      · exact (Except.ok.inj h).symm
      · exact absurd h (by simp)
    · exact absurd h (by simp)

/-- When the embedding of every surviving candidate has the query width,
`retrieve_places` succeeds with the ranked, truncated pool. -/
theorem retrieve_places_ok_of_widths (catalog : List PlaceRecord) (qEmb : List Int)
    (pn rg ct cg : Option String) (req : List String) (k : Nat)
    (H : ∀ c ∈ retrieve_candidates (get_place_activities catalog qEmb pn rg ct cg) req,
      c.embedding.length = qEmb.length) :
    retrieve_places catalog qEmb pn rg ct cg req k =
      .ok ((sortDescBy (fun p => p.1) (score_candidates qEmb
        (retrieve_candidates (get_place_activities catalog qEmb pn rg ct cg) req))).take k) := by
  unfold retrieve_places
  rcases hc : retrieve_candidates (get_place_activities catalog qEmb pn rg ct cg) req
    with _ | ⟨c, cs⟩
  · dsimp only
    simp [score_candidates, sortDescBy, List.take_nil]
  · have hcmem : c ∈ retrieve_candidates (get_place_activities catalog qEmb pn rg ct cg) req := by
      rw [hc]; exact List.mem_cons_self c cs
    have hlen := H c hcmem
    have hall : (cs.all fun c2 => c2.embedding.length == c.embedding.length) = true := by
      rw [List.all_eq_true]
      intro c2 hc2
      have h2 := H c2 (by rw [hc]; exact List.mem_cons_of_mem c hc2)
      rw [beq_iff_eq, h2, hlen]
    have hhead : (c.embedding.length == qEmb.length) = true := beq_iff_eq.2 hlen
    dsimp only
    rw [hall, hhead]
    simp

/-- `semantic_rank` returns at most `top_k` rows. -/
theorem semantic_rank_length_le (rows : List PlaceRow) (qEmb : List Int) (k : Nat) :
    (semantic_rank rows qEmb k).length ≤ k := by
  unfold semantic_rank
  rw [List.length_map, List.length_take]
  exact min_le_left _ _

/-- The candidate loop cannot grow the pool. -/
theorem retrieve_candidates_length_le (rows : List PlaceRow) (req : List String) :
    (retrieve_candidates rows req).length ≤ rows.length :=
  List.length_filterMap_le _ _

/-! ### Properties of the router cache -/

/-- After a call, the cache maps the key to the returned handle. -/
theorem get_or_create_lookup_after (mode : String) (dep : Option String)
    (s : AgentCacheState) :
    ((get_or_create_specialist mode dep s).2).cache.lookup (cache_key mode dep)
      = some (get_or_create_specialist mode dep s).1 := by
  unfold get_or_create_specialist
  rcases h : s.cache.lookup (cache_key mode dep) with _ | h0
  · simp [List.lookup]
  · exact h

/-- A call whose key is already cached returns the cached handle and leaves
the state untouched. -/
theorem get_or_create_of_lookup_some (mode : String) (dep : Option String)
    (s : AgentCacheState) (h : Handle)
    (hl : s.cache.lookup (cache_key mode dep) = some h) :
    get_or_create_specialist mode dep s = (h, s) := by
  unfold get_or_create_specialist
  rw [hl]

/-! ### Haversine bounds for the scenario-C probe

The pair (18.79, 98.98) / (18.80, 98.92) spans 0.01° of latitude and 0.06°
of longitude; interval arithmetic over the haversine formula places the
distance between 6.3 and 6.45 km. -/

set_option maxHeartbeats 8000000 in
theorem hav_probe_bounds :
    6.3 < haversine_distance 18.79 98.98 18.80 98.92
    ∧ haversine_distance 18.79 98.98 18.80 98.92 < 6.45 := by
  have hpl : (3.141592 : ℝ) < Real.pi := Real.pi_gt_d6
  have hpu : Real.pi < 3.141593 := Real.pi_lt_d6
  unfold haversine_distance radians round2
  have harg1 : (18.80 * Real.pi / 180 - 18.79 * Real.pi / 180) / 2 = Real.pi / 36000 := by
    ring
  have harg2 : (98.92 * Real.pi / 180 - 98.98 * Real.pi / 180) / 2 = -(Real.pi / 6000) := by
    ring
  rw [harg1, harg2, Real.sin_neg, neg_sq]
  set x : ℝ := Real.pi / 36000 with hxdef
  set z : ℝ := Real.pi / 6000 with hzdef
  set t1 : ℝ := 18.79 * Real.pi / 180 with ht1def
  set t2 : ℝ := 18.80 * Real.pi / 180 with ht2def
  have hx_l : (0.0000872664 : ℝ) < x := by rw [hxdef]; linarith
  have hx_u : x < 0.0000872665 := by rw [hxdef]; linarith
  have hz_l : (0.0005235986 : ℝ) < z := by rw [hzdef]; linarith
  have hz_u : z < 0.0005235989 := by rw [hzdef]; linarith
  have ht1_l : (0.3279472 : ℝ) < t1 := by rw [ht1def]; linarith
  have ht1_u : t1 < 0.3279475 := by rw [ht1def]; linarith
  have ht2_l : (0.3281218 : ℝ) < t2 := by rw [ht2def]; linarith
  have ht2_u : t2 < 0.3281220 := by rw [ht2def]; linarith
  have hx_pos : (0 : ℝ) < x := by linarith
  have hz_pos : (0 : ℝ) < z := by linarith
  have hsinx_u : Real.sin x < x := Real.sin_lt hx_pos
  have hsinx_nn : 0 ≤ Real.sin x :=
    Real.sin_nonneg_of_nonneg_of_le_pi (le_of_lt hx_pos) (by linarith)
  have hsinx_sq : Real.sin x ^ 2 < 0.0000000076155 := by
    have h1 : Real.sin x ^ 2 < x ^ 2 := pow_lt_pow_left₀ hsinx_u hsinx_nn (by norm_num)
    have h2 : x ^ 2 < 0.0000872665 ^ 2 := pow_lt_pow_left₀ hx_u hx_pos.le (by norm_num)
    have h3 : (0.0000872665 : ℝ) ^ 2 < 0.0000000076155 := by norm_num
    linarith
  have hsinz_u : Real.sin z < z := Real.sin_lt hz_pos
  have hsinz_l1 : z - z ^ 3 / 4 < Real.sin z :=
    Real.sin_gt_sub_cube hz_pos (by linarith)
  have hz_cube : z ^ 3 < 0.000000000144 := by
    have h1 : z ^ 3 < 0.0005235989 ^ 3 := pow_lt_pow_left₀ hz_u hz_pos.le (by norm_num)
    have h2 : (0.0005235989 : ℝ) ^ 3 < 0.000000000144 := by norm_num
    linarith
  have hsinz_l : (0.0005235985 : ℝ) < Real.sin z := by linarith
  have hsinz_sq_l : (0.000000274155 : ℝ) < Real.sin z ^ 2 := by
    have h1 : (0.0005235985 : ℝ) ^ 2 < Real.sin z ^ 2 :=
      pow_lt_pow_left₀ hsinz_l (by norm_num) (by norm_num)
    have h2 : (0.000000274155 : ℝ) < 0.0005235985 ^ 2 := by norm_num
    linarith
  have hsinz_sq_u : Real.sin z ^ 2 < 0.000000274156 := by
    have h0 : Real.sin z < 0.0005235989 := by linarith
    have h1 : Real.sin z ^ 2 < 0.0005235989 ^ 2 :=
      pow_lt_pow_left₀ h0 (by linarith) (by norm_num)
    have h2 : (0.0005235989 : ℝ) ^ 2 < 0.000000274156 := by norm_num
    linarith
  have ht1_abs : |t1| ≤ 1 := by rw [abs_of_pos (by linarith)]; linarith
  have ht2_abs : |t2| ≤ 1 := by rw [abs_of_pos (by linarith)]; linarith
  have hc1 := Real.cos_bound ht1_abs
  have hc2 := Real.cos_bound ht2_abs
  rw [abs_le] at hc1 hc2
  rw [abs_of_pos (show (0:ℝ) < t1 by linarith)] at hc1
  rw [abs_of_pos (show (0:ℝ) < t2 by linarith)] at hc2
  have ht1sq_l : (0.1075493 : ℝ) < t1 ^ 2 := by
    have h1 : (0.3279472 : ℝ) ^ 2 < t1 ^ 2 := pow_lt_pow_left₀ ht1_l (by norm_num) (by norm_num)
    have h2 : (0.1075493 : ℝ) < 0.3279472 ^ 2 := by norm_num
    linarith
  have ht1sq_u : t1 ^ 2 < 0.1075496 := by
    have h1 : t1 ^ 2 < 0.3279475 ^ 2 := pow_lt_pow_left₀ ht1_u (by linarith) (by norm_num)
    have h2 : (0.3279475 : ℝ) ^ 2 < 0.1075496 := by norm_num
    linarith
  have ht2sq_l : (0.1076638 : ℝ) < t2 ^ 2 := by
    have h1 : (0.3281218 : ℝ) ^ 2 < t2 ^ 2 := pow_lt_pow_left₀ ht2_l (by norm_num) (by norm_num)
    have h2 : (0.1076638 : ℝ) < 0.3281218 ^ 2 := by norm_num
    linarith
  have ht2sq_u : t2 ^ 2 < 0.1076642 := by
    have h1 : t2 ^ 2 < 0.3281220 ^ 2 := pow_lt_pow_left₀ ht2_u (by linarith) (by norm_num)
    have h2 : (0.3281220 : ℝ) ^ 2 < 0.1076642 := by norm_num
    linarith
  have ht1q : t1 ^ 4 < 0.0115670 := by
    have he : t1 ^ 4 = (t1 ^ 2) ^ 2 := by ring
    have h1 : (t1 ^ 2) ^ 2 < 0.1075496 ^ 2 := pow_lt_pow_left₀ ht1sq_u (sq_nonneg t1) (by norm_num)
    have h2 : (0.1075496 : ℝ) ^ 2 < 0.0115670 := by norm_num
    rw [he]
    linarith
  have ht2q : t2 ^ 4 < 0.0115916 := by
    have he : t2 ^ 4 = (t2 ^ 2) ^ 2 := by ring
    have h1 : (t2 ^ 2) ^ 2 < 0.1076642 ^ 2 := pow_lt_pow_left₀ ht2sq_u (sq_nonneg t2) (by norm_num)
    have h2 : (0.1076642 : ℝ) ^ 2 < 0.0115916 := by norm_num
    rw [he]
    linarith
  have ht1q_nn : (0:ℝ) ≤ t1 ^ 4 := by positivity
  have ht2q_nn : (0:ℝ) ≤ t2 ^ 4 := by positivity
  have hc1_l : (0.9456227 : ℝ) < Real.cos t1 := by linarith [hc1.1]
  have hc1_u : Real.cos t1 < 0.9468278 := by linarith [hc1.2]
  have hc2_l : (0.9455641 : ℝ) < Real.cos t2 := by linarith [hc2.1]
  have hc2_u : Real.cos t2 < 0.9467719 := by linarith [hc2.2]
  have hP_l : (0.89414 : ℝ) < Real.cos t1 * Real.cos t2 := by
    have h1 : (0.9456227 : ℝ) * 0.9455641 < Real.cos t1 * Real.cos t2 :=
      mul_lt_mul'' hc1_l hc2_l (by norm_num) (by norm_num)
    have h2 : (0.89414 : ℝ) < 0.9456227 * 0.9455641 := by norm_num
    linarith
  have hP_u : Real.cos t1 * Real.cos t2 < 0.89644 := by
    have h1 : Real.cos t1 * Real.cos t2 < 0.9468278 * 0.9467719 :=
      mul_lt_mul'' hc1_u hc2_u (by linarith) (by linarith)
    have h2 : (0.9468278 : ℝ) * 0.9467719 < 0.89644 := by norm_num
    linarith
  have hProd_l : (0.89414 : ℝ) * 0.000000274155 < Real.cos t1 * Real.cos t2 * Real.sin z ^ 2 :=
    mul_lt_mul'' hP_l hsinz_sq_l (by norm_num) (by norm_num)
  have hProd_u : Real.cos t1 * Real.cos t2 * Real.sin z ^ 2 < 0.89644 * 0.000000274156 :=
    mul_lt_mul'' hP_u hsinz_sq_u (by linarith) (sq_nonneg _)
  have hA_l : (0.000000245131 : ℝ) <
      Real.sin x ^ 2 + Real.cos t1 * Real.cos t2 * Real.sin z ^ 2 := by
    have h2 : (0.000000245131 : ℝ) < 0.89414 * 0.000000274155 := by norm_num
    have h3 : (0:ℝ) ≤ Real.sin x ^ 2 := sq_nonneg _
    linarith
  have hA_u : Real.sin x ^ 2 + Real.cos t1 * Real.cos t2 * Real.sin z ^ 2
      < 0.000000253383 := by
    have h2 : (0.0000000076155 : ℝ) + 0.89644 * 0.000000274156 < 0.000000253383 := by norm_num
    linarith
  generalize hAgen : Real.sin x ^ 2 + Real.cos t1 * Real.cos t2 * Real.sin z ^ 2 = A
  rw [hAgen] at hA_l hA_u
  have hA_pos : (0 : ℝ) < A := by linarith
  have hsq_l : (0.0004951 : ℝ) < Real.sqrt A := by
    have hb : (0.0004951 : ℝ) ^ 2 < 0.000000245131 := by norm_num
    have h2 : (0.0004951 : ℝ) ^ 2 < A := by linarith
    exact (Real.lt_sqrt (by norm_num)).2 h2
  have hsq_u : Real.sqrt A < 0.00050338 := by
    have hb : (0.000000253383 : ℝ) < 0.00050338 ^ 2 := by norm_num
    have h2 : A < 0.00050338 ^ 2 := by linarith
    exact (Real.sqrt_lt' (by norm_num)).2 h2
  have hsq_nn : 0 ≤ Real.sqrt A := Real.sqrt_nonneg _
  have hsq_le1 : Real.sqrt A ≤ 1 := le_trans (le_of_lt hsq_u) (by norm_num)
  set s : ℝ := Real.arcsin (Real.sqrt A) with hsdef
  have hs_pos : 0 < s := Real.arcsin_pos.2 (by linarith)
  have hsin_s : Real.sin s = Real.sqrt A :=
    Real.sin_arcsin (by linarith) hsq_le1
  have hs_l : Real.sqrt A < s := by
    have h := Real.sin_lt hs_pos
    rw [hsin_s] at h
    exact h
  have hs_half : s ≤ Real.pi / 2 := Real.arcsin_le_pi_div_two _
  have hs_le1 : s ≤ 1 := by
    by_contra hgt
    push_neg at hgt
    have h1mem : (1 : ℝ) ∈ Set.Icc (-(Real.pi / 2)) (Real.pi / 2) := by
      constructor <;> linarith
    have hsmem : s ∈ Set.Icc (-(Real.pi / 2)) (Real.pi / 2) := by
      constructor <;> linarith
    have hmono := Real.strictMonoOn_sin h1mem hsmem hgt
    have hsin1 : (0.75 : ℝ) < Real.sin 1 := by
      have h := Real.sin_gt_sub_cube (by norm_num : (0:ℝ) < 1) (le_refl 1)
      have h2 : (1:ℝ) - 1 ^ 3 / 4 = 0.75 := by norm_num
      linarith
    rw [hsin_s] at hmono
    linarith
  have hs_cube_bound := Real.sin_gt_sub_cube hs_pos hs_le1
  rw [hsin_s] at hs_cube_bound
  have hsq1 : s ^ 2 ≤ 1 := pow_le_one₀ hs_pos.le hs_le1
  have hcube_le : s ^ 3 ≤ s := by
    have h1 : s * s ^ 2 ≤ s * 1 := mul_le_mul_of_nonneg_left hsq1 hs_pos.le
    calc s ^ 3 = s * s ^ 2 := by ring
    _ ≤ s * 1 := h1
    _ = s := by ring
  have hs_crude : s < 0.000671174 := by linarith
  have hs_cube : s ^ 3 < 0.000000000303 := by
    have h1 : s ^ 3 < 0.000671174 ^ 3 := pow_lt_pow_left₀ hs_crude hs_pos.le (by norm_num)
    have h2 : (0.000671174 : ℝ) ^ 3 < 0.000000000303 := by norm_num
    linarith
  have hs_u : s < 0.0005033801 := by linarith
  have hraw_l : (6.3085 : ℝ) < 6371.0 * (2 * s) := by linarith
  have hraw_u : 6371.0 * (2 * s) < 6.4141 := by linarith
  have hround := abs_sub_round (6371.0 * (2 * s) * 100)
  rw [abs_le] at hround
  constructor
  · have h1 : (630.35 : ℝ) < ((round (6371.0 * (2 * s) * 100) : ℤ) : ℝ) := by linarith
    linarith
  · have h1 : ((round (6371.0 * (2 * s) * 100) : ℤ) : ℝ) < 641.91 := by linarith
    linarith

/-- The scenario-C probe point is farther than the 5 km radius, so
`find_nearby` filters it out and returns the empty list. -/
theorem find_nearby_probe_empty :
    find_nearby 18.79 98.98 [watDoiItem] 5 = [] := by
  have hd : ¬ (haversine_distance 18.79 98.98 18.80 98.92 ≤ 5) := by
    push_neg
    linarith [hav_probe_bounds.1]
  unfold find_nearby
  simp only [List.filterMap_cons, List.filterMap_nil, watDoiItem]
  rw [if_neg hd]
  rfl

/-! ### Claim theorems -/

/-- C2 (counterexample): the claim says a resolved mode string without a
registered factory makes the router lookup-or-create raise.  In the code,
`get_or_create_specialist` has a `# Fallback to itinerary agent` else branch
and never raises: for the unregistered mode string `"hotel_booking"` it
returns a handle (built by the itinerary factory) instead of raising. -/
theorem c2_counterexample :
    valid_modes.contains "hotel_booking" = false
    ∧ (get_or_create_specialist "hotel_booking" none emptyAgentCache).1
        = ⟨AgentKind.itineraryAgent, 0⟩ := by
  exact ⟨rfl, rfl⟩

/-- C2 (amended): the router function `get_or_create_specialist` never
raises — a
mode string outside the closed mode set falls back to the itinerary factory
on a cache miss; only `create_standalone_agent` in the factory module
raises on a
missing registry entry, and every `GenerationMode` member has an entry, so
it never raises either. -/
theorem c2_amended :
    (∀ (mode : String) (dep : Option String) (s : AgentCacheState),
        valid_modes.contains mode = false →
        s.cache.lookup (cache_key mode dep) = none →
        (get_or_create_specialist mode dep s).1.kind = AgentKind.itineraryAgent)
    ∧ ∀ m : GenerationMode, (create_standalone_agent m).isOk = true := by
  constructor
  · intro mode dep s hmode hmiss
    have hne : mode ≠ "itinerary" ∧ mode ≠ "suggest_places" ∧ mode ≠ "describe_place"
        ∧ mode ≠ "activity_focused" ∧ mode ≠ "comparison" ∧ mode ≠ "find_accommodation" := by
      simpa [valid_modes] using hmode
    unfold get_or_create_specialist
    rw [hmiss]
    dsimp only
    obtain ⟨h1, h2, h3, h4, h5, h6⟩ := hne
    simp [specialist_kind_for_mode, h1, h2, h3, h4, h5, h6]
  · intro m
    cases m <;> rfl

/-- C2 (witness): the amended theorem applied to the unregistered mode
string `"hotel_booking"` against the empty cache. -/
theorem c2_witness :
    (get_or_create_specialist "hotel_booking" none emptyAgentCache).1.kind
      = AgentKind.itineraryAgent :=
  c2_amended.1 "hotel_booking" none emptyAgentCache (by decide) rfl

/-- C4 (counterexample): a Completion Service output decoding to an object
with is_multi_intent set to true and an empty intents array is passed
through unchanged —
`classify_multi_intent` returns `is_multi_intent = true` with an empty
intents list (the claim requires `is_multi_intent = false` with a non-empty
default intent), and `route_multi_intent` proceeds on the multi-intent
path. -/
theorem c4_counterexample :
    classify_multi_intent
        (some (.obj [("is_multi_intent", .bool true), ("intents", .arr [])]))
      = .ok ⟨.bool true, .str "itinerary", .arr [], .str "Classification completed"⟩
    ∧ route_multi_intent_decision
        (some (.obj [("is_multi_intent", .bool true), ("intents", .arr [])]))
      = .ok .multiAgent := by
  exact ⟨rfl, rfl⟩

/-- C4 (amended): on unparseable Completion Service output `decompose`
falls back to `is_multi_intent = false` with the default primary intent
`"itinerary"` (and an empty sub-intent list) without raising, and the
router then routes single-intent; but an output whose `is_multi_intent`
field is truthy is passed through even when `intents` is empty, and the
router proceeds in multi-intent mode (the multi-agent orchestrator
re-processes the raw query, so the empty list is never consulted). -/
theorem c4_amended :
    classify_multi_intent none
      = .ok ⟨.bool false, .str "itinerary", .arr [], .str "Classification completed"⟩
    ∧ route_multi_intent_decision none = .ok (.singleSpecialist (.str "itinerary"))
    ∧ ∀ fields : List (String × Json),
        jsonTruthy (pyDictGet fields "is_multi_intent" (.bool false)) = true →
        route_multi_intent_decision (some (.obj fields)) = .ok .multiAgent := by
  refine ⟨rfl, rfl, ?_⟩
  intro fields htrue
  unfold route_multi_intent_decision classify_multi_intent
  simp only [extract_json, pyGetAttr, bind, Except.bind, pure, Except.pure]
  rw [htrue]
  rfl

/-- C4 (witness): the pass-through conjunct of the amended theorem applied
to the concrete object carrying only a true is_multi_intent field. -/
theorem c4_witness :
    route_multi_intent_decision (some (.obj [("is_multi_intent", .bool true)]))
      = .ok .multiAgent :=
  c4_amended.2.2 [("is_multi_intent", .bool true)] rfl

/-- C7 (counterexample): the claim says `classify` never raises on any
Completion Service output.  An output decoding to a JSON array (valid JSON,
not an object) makes `result.get("generation_mode", ...)` raise
`AttributeError`. -/
theorem c7_counterexample :
    classify_generation_mode (some (.arr [])) = .error "AttributeError" := rfl

/-- C7 (amended): for every Completion Service output that either fails to
decode or decodes to a JSON object, `classify` returns successfully and the
returned mode is a member of the closed six-value set (out-of-set values are
replaced with `"itinerary"`); an output decoding to a non-object JSON value
instead raises `AttributeError` at the `.get` call. -/
theorem c7_amended (resp : Option Json) (h : respObjOrFail resp = true) :
    (classify_generation_mode resp).isOk = true
    ∧ valid_modes.contains (classified_mode (classify_generation_mode resp)) = true := by
  rcases resp with _ | j
  · exact ⟨rfl, rfl⟩
  · cases j with
    | obj fields =>
      refine ⟨rfl, ?_⟩
      show valid_modes.contains
        (match pyDictGet fields "generation_mode" (.str "itinerary") with
          | .str s => if valid_modes.contains s then s else "itinerary"
          | _ => "itinerary") = true
      rcases pyDictGet fields "generation_mode" (.str "itinerary")
        with _ | b | n | s | el | fl
      · rfl
      · rfl
      · rfl
      · dsimp only
        split
        · rename_i hs
          exact hs
        · rfl
      · rfl
      · rfl
    | null => exact absurd h (by simp [respObjOrFail])
    | bool b => exact absurd h (by simp [respObjOrFail])
    | num n => exact absurd h (by simp [respObjOrFail])
    | str s => exact absurd h (by simp [respObjOrFail])
    | arr el => exact absurd h (by simp [respObjOrFail])

/-- C7 (witness): the amended theorem at the concrete object mapping
generation_mode to the string "comparison". -/
theorem c7_witness :
    (classify_generation_mode (some (.obj [("generation_mode", .str "comparison")]))).isOk = true
    ∧ valid_modes.contains (classified_mode (classify_generation_mode
        (some (.obj [("generation_mode", .str "comparison")])))) = true :=
  c7_amended (some (.obj [("generation_mode", .str "comparison")])) rfl

/-- C8 (counterexample): the claim asserts at most one handle construction
per cache key even under concurrent duplicate calls.  The source guards the
check-and-insert with no lock, so the schedule check₁, check₂, construct₁,
construct₂, return₁, return₂ of two duplicate `get_or_create_specialist`
calls performs two constructions (`nextId = 2`) for the single key
`"itinerary_default"`; both calls complete and return the last-stored
handle. -/
theorem c8_counterexample :
    (runSchedule "itinerary" none [true, false, true, false, true, false]
        initialConcState).shared.nextId = 2
    ∧ (runSchedule "itinerary" none [true, false, true, false, true, false]
        initialConcState).thread1.phase = .finished
    ∧ (runSchedule "itinerary" none [true, false, true, false, true, false]
        initialConcState).thread2.phase = .finished
    ∧ (runSchedule "itinerary" none [true, false, true, false, true, false]
        initialConcState).thread1.retVal
      = (runSchedule "itinerary" none [true, false, true, false, true, false]
        initialConcState).thread2.retVal := by
  decide

/-- C8 (amended): sequentially, the cache is idempotent — a second call with
the same `(mode, deployment)` returns the identical (identity-equal) handle
and leaves the state unchanged, so no second construction occurs; but the
check-and-insert is not guarded by a lock, so concurrent duplicate calls can
construct more than one handle for the same key. -/
theorem c8_amended (mode : String) (dep : Option String) (s : AgentCacheState) :
    get_or_create_specialist mode dep (get_or_create_specialist mode dep s).2
      = ((get_or_create_specialist mode dep s).1, (get_or_create_specialist mode dep s).2) :=
  get_or_create_of_lookup_some mode dep _ _ (get_or_create_lookup_after mode dep s)

/-- C10 (confirmed): `cache_key` renders a `None` deployment configuration
as the literal `"default"`, so `get_or_create_specialist(mode, None)` and
`get_or_create_specialist(mode, "default")` hit the same cache entry: after
the first call, the second returns the identical handle and performs no
construction, for every mode and every starting state. -/
theorem c10_none_aliases_default (mode : String) (s : AgentCacheState) :
    get_or_create_specialist mode (some "default") (get_or_create_specialist mode none s).2
      = ((get_or_create_specialist mode none s).1, (get_or_create_specialist mode none s).2) := by
  apply get_or_create_of_lookup_some
  have hkey : cache_key mode (some "default") = cache_key mode none := rfl
  rw [hkey]
  exact get_or_create_lookup_after mode none s

/-- C5 (confirmed): with a non-empty requested-activities set, every record
returned by `retrieve_places` contains every requested activity in its
activity set under exact case-insensitive matching; failing candidates are
discarded by `continue` before any scoring. -/
theorem c5_activity_hard_gate (catalog : List PlaceRecord) (qEmb : List Int)
    (pn rg ct cg : Option String) (req : List String) (k : Nat)
    (result : List (Int × Candidate))
    (h : retrieve_places catalog qEmb pn rg ct cg req k = .ok result)
    (hreq : req ≠ []) :
    ∀ p ∈ result, ∀ a ∈ req, p.2.activities.contains (pyLower a) = true := by
  intro p hp a ha
  have heq := retrieve_places_ok_eq catalog qEmb pn rg ct cg req k result h
  subst heq
  have hp1 := List.Sublist.mem hp (List.take_sublist k _)
  have hp2 := (sortDescBy_perm (fun q : Int × Candidate => q.1) _).mem_iff.1 hp1
  have hmem := (mem_score_candidates qEmb _ p hp2).2
  refine (mem_retrieve_candidates _ req p.2 hmem).2 ?_ a ha
  cases req with
  | nil => exact absurd rfl hreq
  | cons x xs => rfl

/-- C5 (witness): the hard-gate theorem applied to a two-record catalog with
requested activities `["hiking"]`; the lower-cased
activity set contains `"hiking"`. -/
theorem c5_witness :
    (Candidate.mk "Doi Inthanon" ["hiking", "temples"]
      [scaledFloatOne]).activities.contains (pyLower "hiking") = true :=
  c5_activity_hard_gate catalogGate qEmbUnit none none none none ["hiking"] 5
    [(scaledFloatOne, ⟨"Doi Inthanon", ["hiking", "temples"], [scaledFloatOne]⟩)]
    rfl (by decide)
    (scaledFloatOne, ⟨"Doi Inthanon", ["hiking", "temples"], [scaledFloatOne]⟩)
    (List.mem_singleton.2 rfl) "hiking" (List.mem_singleton.2 rfl)

/-- C6 (confirmed): a successful `retrieve_places` result scores every
returned candidate as the dot product of its embedding with the query
embedding, is sorted in descending score order, has length at most `top_k`,
and is the `top_k`-prefix of a full ranking that permutes the scored pool,
is sorted descending, and preserves the pool order inside every score class
(the stable-sort tie-breaking property). -/
theorem c6_ranking_sorted_stable_truncated (catalog : List PlaceRecord)
    (qEmb : List Int) (pn rg ct cg : Option String) (req : List String) (k : Nat)
    (result : List (Int × Candidate))
    (h : retrieve_places catalog qEmb pn rg ct cg req k = .ok result) :
    (∀ p ∈ result, p.1 = dotInt p.2.embedding qEmb)
    ∧ result.Pairwise (fun a b => b.1 ≤ a.1)
    ∧ result.length ≤ k
    ∧ ∃ full : List (Int × Candidate),
        result = full.take k
        ∧ full.Perm (score_candidates qEmb (retrieve_candidates
            (get_place_activities catalog qEmb pn rg ct cg) req))
        ∧ full.Pairwise (fun a b => b.1 ≤ a.1)
        ∧ ∀ q : Int, full.filter (fun p => p.1 == q)
            = (score_candidates qEmb (retrieve_candidates
                (get_place_activities catalog qEmb pn rg ct cg) req)).filter
                  (fun p => p.1 == q) := by
  have heq := retrieve_places_ok_eq catalog qEmb pn rg ct cg req k result h
  subst heq
  refine ⟨?_, ?_, ?_, ?_⟩
  · intro p hp
    have hp1 := List.Sublist.mem hp (List.take_sublist k _)
    have hp2 := (sortDescBy_perm (fun q : Int × Candidate => q.1) _).mem_iff.1 hp1
    exact (mem_score_candidates qEmb _ p hp2).1
  · exact List.Pairwise.sublist (List.take_sublist k _)
      (sortDescBy_sorted (fun q : Int × Candidate => q.1) _)
  · rw [List.length_take]
    exact min_le_left _ _
  · exact ⟨sortDescBy (fun q : Int × Candidate => q.1) _, rfl,
      sortDescBy_perm _ _, sortDescBy_sorted _ _,
      fun q => sortDescBy_filter_eq _ _ q⟩

/-- C6 (witness): the ranking theorem applied to a catalog whose two records
score 2.0 and 1.0 against the query embedding; the concrete result is in
descending order and within `top_k`. -/
theorem c6_witness :
    ([(scaledFloatTwo, Candidate.mk "Doi Suthep" ["hiking"] [scaledFloatTwo]),
      (scaledFloatOne, Candidate.mk "Doi Inthanon" ["hiking"] [scaledFloatOne])].Pairwise
        fun a b => b.1 ≤ a.1)
    ∧ ([(scaledFloatTwo, Candidate.mk "Doi Suthep" ["hiking"] [scaledFloatTwo]),
        (scaledFloatOne, Candidate.mk "Doi Inthanon" ["hiking"] [scaledFloatOne])] :
          List (Int × Candidate)).length ≤ 5 := by
  have T := c6_ranking_sorted_stable_truncated catalogScores qEmbUnit none none none none [] 5
    [(scaledFloatTwo, ⟨"Doi Suthep", ["hiking"], [scaledFloatTwo]⟩),
     (scaledFloatOne, ⟨"Doi Inthanon", ["hiking"], [scaledFloatOne]⟩)] rfl
  exact ⟨T.2.1, T.2.2.1⟩

/-- C1 (counterexample): the claim says that with zero filters and zero
requested activities, `retrieve` enumerates every catalog record subject
only to the final `top_k` truncation.  In the code the zero-filter branch
delegates to `semantic_search_all(query, top_k=5)`, which pre-truncates the
pool to 5 rows: on a catalog of six fully eligible records with `top_k = 6`,
retrieval returns 5 records, not 6. -/
theorem c1_counterexample :
    catalogSixPlaces.length = 6
    ∧ Except.map List.length
        (retrieve_places catalogSixPlaces qEmbUnit none none none none [] 6) = .ok 5 := by
  exact ⟨rfl, rfl⟩

/-- C1 (amended): with zero filters and zero requested activities the
engine fetches the full catalog but semantically ranks it and keeps only the
top 5 rows as the candidate pool, so retrieval always succeeds and returns
at most `min(top_k, 5)` records — a pre-truncated subset, not the full
catalog. -/
theorem c1_amended_pool_pretruncated (catalog : List PlaceRecord)
    (qEmb : List Int) (k : Nat) :
    match retrieve_places catalog qEmb none none none none [] k with
    | .ok res => res.length ≤ k ∧ res.length ≤ 5
    | .error _ => False := by
  have H : ∀ c ∈ retrieve_candidates
      (get_place_activities catalog qEmb none none none none) [],
      c.embedding.length = qEmb.length := by
    intro c hc
    obtain ⟨⟨r, hr, hacts, bs, hbs, hdec⟩, _⟩ := mem_retrieve_candidates _ [] c hc
    have hr' : r ∈ semantic_rank
        ((catalog.filter fun p => !p.activities.isEmpty).map rowOfPlace) qEmb 5 := hr
    obtain ⟨_, bs', emb', hbs', hdec', hlen'⟩ :=
      mem_semantic_rank ((catalog.filter fun p => !p.activities.isEmpty).map rowOfPlace)
        qEmb 5 r hr'
    rw [hbs] at hbs'
    obtain rfl := Option.some.inj hbs'
    rw [hdec] at hdec'
    obtain rfl := Except.ok.inj hdec'
    exact hlen'
  rw [retrieve_places_ok_of_widths catalog qEmb none none none none [] k H]
  dsimp only
  constructor
  · rw [List.length_take]
    exact min_le_left _ _
  · rw [List.length_take]
    refine le_trans (min_le_right _ _) ?_
    rw [(sortDescBy_perm (fun q : Int × Candidate => q.1) _).length_eq]
    unfold score_candidates
    rw [List.length_map]
    refine le_trans (retrieve_candidates_length_le _ _) ?_
    exact semantic_rank_length_le
      ((catalog.filter fun p => !p.activities.isEmpty).map rowOfPlace) qEmb 5

/-- C3 (counterexample): the claim says a candidate whose embedding byte
length is inconsistent with the expected width D = 768 is excluded and never
aborts retrieval.  An 8-byte blob passes `np.frombuffer` (its length is a
multiple of 4), survives collection, and then the `np.vstack` of a 768-wide
and a 2-wide row raises, aborting retrieval for every candidate. -/
theorem c3_counterexample :
    retrieve_places catalogWidthMix qEmb768 none (some "high") none none [] 5
      = .error "ValueError: all the input array dimensions must match exactly" := by
  rfl

/-- C3 (amended): a candidate whose embedding is absent or whose byte
length is not a multiple of the 4-byte element size is skipped without
aborting retrieval; retrieval is guaranteed to succeed only when every
decoded surviving embedding has the query-embedding width, a width mismatch
on a decodable blob instead raising for the whole call. -/
theorem c3_amended_width_consistent_ok (catalog : List PlaceRecord)
    (qEmb : List Int) (pn rg ct cg : Option String) (req : List String) (k : Nat)
    (H : (retrieve_candidates (get_place_activities catalog qEmb pn rg ct cg) req).all
        (fun c => c.embedding.length == qEmb.length) = true) :
    (retrieve_places catalog qEmb pn rg ct cg req k).isOk = true := by
  have H' : ∀ c ∈ retrieve_candidates (get_place_activities catalog qEmb pn rg ct cg) req,
      c.embedding.length = qEmb.length :=
    fun c hc => beq_iff_eq.1 (List.all_eq_true.1 H c hc)
  rw [retrieve_places_ok_of_widths catalog qEmb pn rg ct cg req k H']
  rfl

/-- C3 (witness): the amended theorem on a catalog holding one good record,
one record with a missing embedding, and one with a 3-byte corrupted blob:
the two bad records are skipped and retrieval still succeeds. -/
theorem c3_witness :
    (retrieve_places catalogCorrupt qEmbUnit none (some "north") none none [] 5).isOk = true :=
  c3_amended_width_consistent_ok catalogCorrupt qEmbUnit none (some "north") none none [] 5
    (by decide)

/-- C9 (counterexample): the claim says `findNearby(18.79, 98.98, [item],
radiusKm=5)` on the item at latitude 18.80, longitude 98.92 returns a
singleton with distance ≈1.9–2.2 km.  The haversine distance between those
points is ≈6.41 km (the pair spans 0.06° of longitude), which exceeds the
5 km radius, so `find_nearby` returns the empty list — length 0, not 1. -/
theorem c9_counterexample :
    find_nearby 18.79 98.98 [watDoiItem] 5 = [] :=
  find_nearby_probe_empty

/-- C9 (amended): on the scenario-C input the haversine-computed distance
(Earth radius 6371.0 km, rounded to two decimals) lies between 6.3 and
6.45 km — not 1.9–2.2 — so with `radiusKm = 5` the item is filtered out and
`find_nearby` returns the empty list. -/
theorem c9_amended_out_of_radius :
    (6.3 < haversine_distance 18.79 98.98 18.80 98.92
      ∧ haversine_distance 18.79 98.98 18.80 98.92 < 6.45)
    ∧ find_nearby 18.79 98.98 [watDoiItem] 5 = [] :=
  ⟨hav_probe_bounds, find_nearby_probe_empty⟩

end TravelSpec
